import Mathlib

/-!
Shallow embedding of the contact/demo-request intake and notification
pipeline of the GlobalTechAndTrade Flask application (src/app.py).

The embedding models:
* the string primitives the handlers use (Python `str.strip()` and the
  substring test `c in s` for a single character);
* the `/contact` POST handler (src/app.py lines 189-226);
* the `/health` handler (src/app.py lines 1724-1727);
* the `/api/send-demo-confirmation` handler (src/app.py lines 1732-1863),
  with the two outbound Resend API calls represented by an explicit
  transport environment that yields, for each attempted HTTP post, either
  a response (status code and text) or a raised exception.

Effects (flashed messages, log lines, attempted network sends) are made
explicit in the result records so that frame properties ("no network call
is attempted") are statable.
-/

namespace GlobalTechTrade

/-- Python `c in s` for a single character `c` and string `s`:
membership of the character in the string's characters. -/
def pyIn (c : Char) (s : String) : Bool :=
  decide (c ∈ s.data)

/-- Python `s.strip()`: remove whitespace characters from both ends. -/
def pyStrip (s : String) : String :=
  ⟨((s.data.dropWhile Char.isWhitespace).reverse.dropWhile Char.isWhitespace).reverse⟩

/-- Characters surviving `pyStrip` are characters of the original string. -/
theorem mem_of_mem_pyStrip {c : Char} {s : String} (h : c ∈ (pyStrip s).data) :
    c ∈ s.data := by
  unfold pyStrip at h
  simp only [List.mem_reverse] at h
  have h1 : c ∈ (s.data.dropWhile Char.isWhitespace).reverse :=
    (List.dropWhile_sublist _).mem h
  rw [List.mem_reverse] at h1
  exact (List.dropWhile_sublist _).mem h1

/-- If a character does not occur in a string, it does not occur in the
stripped string either. -/
theorem pyIn_pyStrip_eq_false {c : Char} {s : String} (h : pyIn c s = false) :
    pyIn c (pyStrip s) = false := by
  unfold pyIn at *
  simp only [decide_eq_false_iff_not] at *
  exact fun hm => h (mem_of_mem_pyStrip hm)

/-- Severity of a logger call (`app.logger.info/warning/error`). -/
inductive LogLevel where
  | info
  | warning
  | error
deriving DecidableEq, Repr

/-- One emitted log line. -/
structure LogEntry where
  level : LogLevel
  msg : String
deriving DecidableEq, Repr

/-- One outbound email, as posted to the Resend HTTP API:
sender, recipient list, subject and HTML body. -/
structure EmailMsg where
  fromAddr : String
  toAddrs : List String
  subject : String
  html : String
deriving DecidableEq, Repr

/-- Form fields of a POST to `/contact` (`request.form`); `none` models an
absent field, for which `request.form.get(key, default)` yields the default. -/
structure ContactForm where
  name : Option String := none
  email : Option String := none
  phone : Option String := none
  company : Option String := none
  service : Option String := none
  message : Option String := none
deriving DecidableEq, Repr

/-- The local variables the `/contact` handler extracts from the form
(src/app.py lines 193-198) — the ContactRequest of the specification. -/
structure ContactFields where
  name : String
  email : String
  phone : String
  company : String
  service : String
  message : String
deriving DecidableEq, Repr

/-- Field extraction of the `/contact` handler, src/app.py lines 193-198:
every field except `service` is fetched with default `''` and stripped;
`service` is fetched with default `'General Services'` and not stripped. -/
def parseContact (f : ContactForm) : ContactFields :=
  { name := pyStrip (f.name.getD "")
    email := pyStrip (f.email.getD "")
    phone := pyStrip (f.phone.getD "")
    company := pyStrip (f.company.getD "")
    service := f.service.getD "General Services"
    message := pyStrip (f.message.getD "") }

/-- Observable outcome of the `/contact` POST handler: flashed messages
(text, category), log lines, attempted outbound emails, rendered template
and HTTP status. -/
structure ContactOutcome where
  flashes : List (String × String)
  logs : List LogEntry
  sends : List EmailMsg
  template : String
  status : Nat
deriving DecidableEq, Repr

/-- Success flash of the `/contact` handler, src/app.py line 206. -/
def contactThanksLine (n : String) : String :=
  s!"Thank you {n}! Our team will contact you shortly regarding your inquiry."

/-- Info log of the `/contact` handler, src/app.py line 205. -/
def contactLogLine (n e sv : String) : String :=
  s!"Contact Form: {n} ({e}) - Service: {sv}"

/-- The POST branch of the `/contact` handler, src/app.py lines 192-226.
Validation (line 201): reject when `name`, `email` or `message` is empty
after stripping, or `email` lacks an `'@'`. Both branches fall through to
`render_template('contact.html', ...)`, an HTTP 200. No email is sent on
either branch. -/
def contact_post (form : ContactForm) : ContactOutcome :=
  let c := parseContact form
  if c.name = "" ∨ c.email = "" ∨ ¬ pyIn '@' c.email ∨ c.message = "" then
    { flashes := [("Please fill in all required fields correctly.", "error")]
      logs := []
      sends := []
      template := "contact.html"
      status := 200 }
  else
    { flashes := [(contactThanksLine c.name, "success")]
      logs := [⟨LogLevel.info, contactLogLine c.name c.email c.service⟩]
      sends := []
      template := "contact.html"
      status := 200 }

/-- JSON body of a POST to `/api/send-demo-confirmation` (`request.get_json()`);
`none` for a field models an absent key, for which `data.get(key, default)`
yields the default. A wholly absent or empty JSON object is modelled by
`Option DemoData` being `none` or all fields being `none` (both are falsy
in Python and hit the `if not data` branch). -/
structure DemoData where
  name : Option String := none
  email : Option String := none
  phone : Option String := none
  company : Option String := none
  service : Option String := none
  message : Option String := none
deriving DecidableEq, Repr

/-- Python truthiness of the decoded JSON object: an empty dict is falsy. -/
def DemoData.isEmpty (d : DemoData) : Bool :=
  d.name.isNone && d.email.isNone && d.phone.isNone && d.company.isNone &&
    d.service.isNone && d.message.isNone

/-- The local variables the `/api/send-demo-confirmation` handler extracts
from the JSON body, src/app.py lines 1743-1748. -/
structure DemoFields where
  visitor_email : String
  visitor_name : String
  phone : String
  company : String
  service : String
  message : String
deriving DecidableEq, Repr

/-- Field extraction of the API handler, src/app.py lines 1743-1748:
`email` and `name` are fetched with default `''` and stripped; `phone`,
`company` and `service` are fetched with default `''` unstripped;
`message` is fetched with default `'None'` unstripped. -/
def parseDemo (d : DemoData) : DemoFields :=
  { visitor_email := pyStrip (d.email.getD "")
    visitor_name := pyStrip (d.name.getD "")
    phone := d.phone.getD ""
    company := d.company.getD ""
    service := d.service.getD ""
    message := d.message.getD "None" }

/-- Outcome of one `http_requests.post(...)` call against the Resend API:
either an HTTP response (status code and text) or a raised exception with
its message (`str(e)`). -/
inductive SendOutcome where
  | resp (status : Nat) (text : String)
  | exn (msg : String)
deriving DecidableEq, Repr

/-- Transport environment for one request: what the network would return
for the visitor-email post and for the company-email post. -/
structure Transport where
  visitor : SendOutcome
  company : SendOutcome
deriving DecidableEq, Repr

/-- JSON response body of the API handler: either
`{'success': False, 'error': e}` or `{'success': True, 'message': m}`. -/
inductive JsonBody where
  | failure (error : String)
  | success (message : String)
deriving DecidableEq, Repr

/-- Observable outcome of the API handler: response body, HTTP status,
attempted outbound emails (in order), log lines (in order). -/
structure ApiOutcome where
  body : JsonBody
  status : Nat
  sends : List EmailMsg
  logs : List LogEntry
deriving DecidableEq, Repr

/-- The `from` address of both Resend API calls, src/app.py lines 1828/1843. -/
def resendFrom : String := "GlobalTechAndTrade <noreply@globaltechandtrade.com>"

/-- HTML body of the visitor confirmation email (the `visitor_html`
f-string, src/app.py lines 1762-1796). -/
def visitorHtml (visitor_name visitor_email phone company service : String) : String :=
  r#"
        <!DOCTYPE html>
        <html>
        <head><meta charset="UTF-8"></head>
        <body style="margin: 0; padding: 0; font-family: Arial, sans-serif; background-color: #f4f7fa;">
            <div style="max-width: 600px; margin: 0 auto; background-color: #ffffff;">
                <div style="background: linear-gradient(135deg, #0052CC 0%, #003D99 100%); padding: 30px; text-align: center;">
                    <h1 style="color: #ffffff; margin: 0; font-size: 24px;">GlobalTechAndTrade</h1>
                    <p style="color: #93c5fd; margin: 10px 0 0 0; font-size: 14px;">IT Solutions & Import/Export Services</p>
                </div>
                <div style="padding: 30px;">
                    <h2 style="color: #1e3a5f; margin-top: 0;">Demo Request Confirmed!</h2>
                    <p style="color: #4a5568; font-size: 16px;">Dear <strong>"# ++
  visitor_name ++
  r#"</strong>,</p>
                    <p style="color: #4a5568; font-size: 16px;">Thank you for booking a demo with GlobalTechAndTrade! Your request has been received.</p>
                    <div style="background-color: #f0f9ff; border-left: 4px solid #0052CC; padding: 20px; margin: 20px 0;">
                        <h3 style="color: #0052CC; margin-top: 0;">Your Booking Details</h3>
                        <p style="margin: 5px 0;"><strong>Name:</strong> "# ++
  visitor_name ++
  r#"</p>
                        <p style="margin: 5px 0;"><strong>Email:</strong> "# ++
  visitor_email ++
  r#"</p>
                        <p style="margin: 5px 0;"><strong>Phone:</strong> "# ++
  phone ++
  r#"</p>
                        <p style="margin: 5px 0;"><strong>Company:</strong> "# ++
  company ++
  r#"</p>
                        <p style="margin: 5px 0;"><strong>Service:</strong> "# ++
  service ++
  r#"</p>
                    </div>
                    <div style="background-color: #f0fdf4; border-left: 4px solid #22c55e; padding: 20px; margin: 20px 0;">
                        <h3 style="color: #166534; margin-top: 0;">What Happens Next?</h3>
                        <p style="color: #4a5568; margin: 0;">Our team will contact you within <strong>24 hours</strong> to schedule your demo.</p>
                    </div>
                    <p style="color: #4a5568;"><strong>Contact Us:</strong><br>India: +91 8273542939<br>Africa: 097 7588581<br>Email: info@globaltechandtrade.com</p>
                </div>
                <div style="background-color: #1e3a5f; padding: 20px; text-align: center;">
                    <p style="color: #93c5fd; margin: 0;">Thank you for choosing GlobalTechAndTrade!</p>
                </div>
            </div>
        </body>
        </html>
        "#

/-- HTML body of the company notification email (the `company_html`
f-string, src/app.py lines 1799-1815). `nowStr` stands for
`datetime.now().strftime('%Y-%m-%d %H:%M:%S')`. -/
def companyHtml (visitor_name visitor_email phone company service message nowStr : String) :
    String :=
  r#"
        <html>
        <body style="font-family: Arial, sans-serif; padding: 20px;">
            <h2 style="color: #0052CC;">New Demo Request from Chatbot</h2>
            <table style="border-collapse: collapse; width: 100%; max-width: 500px;">
                <tr><td style="padding: 10px; border: 1px solid #ddd; background: #f5f5f5;"><strong>Name</strong></td><td style="padding: 10px; border: 1px solid #ddd;">"# ++
  visitor_name ++
  r#"</td></tr>
                <tr><td style="padding: 10px; border: 1px solid #ddd; background: #f5f5f5;"><strong>Email</strong></td><td style="padding: 10px; border: 1px solid #ddd;">"# ++
  visitor_email ++
  r#"</td></tr>
                <tr><td style="padding: 10px; border: 1px solid #ddd; background: #f5f5f5;"><strong>Phone</strong></td><td style="padding: 10px; border: 1px solid #ddd;">"# ++
  phone ++
  r#"</td></tr>
                <tr><td style="padding: 10px; border: 1px solid #ddd; background: #f5f5f5;"><strong>Company</strong></td><td style="padding: 10px; border: 1px solid #ddd;">"# ++
  company ++
  r#"</td></tr>
                <tr><td style="padding: 10px; border: 1px solid #ddd; background: #f5f5f5;"><strong>Service</strong></td><td style="padding: 10px; border: 1px solid #ddd;">"# ++
  service ++
  r#"</td></tr>
                <tr><td style="padding: 10px; border: 1px solid #ddd; background: #f5f5f5;"><strong>Message</strong></td><td style="padding: 10px; border: 1px solid #ddd;">"# ++
  message ++
  r#"</td></tr>
                <tr><td style="padding: 10px; border: 1px solid #ddd; background: #f5f5f5;"><strong>Time</strong></td><td style="padding: 10px; border: 1px solid #ddd;">"# ++
  nowStr ++
  r#"</td></tr>
            </table>
            <p style="margin-top: 20px; color: #666;">Please contact this lead within 24 hours.</p>
        </body>
        </html>
        "#

/-- Subject of the company notification email, src/app.py line 1845. -/
def companySubject (n sv : String) : String :=
  s!"New Demo Request - {n} ({sv})"

/-- The visitor email as posted to the Resend API, src/app.py lines 1824-1834. -/
def visitorEmailMsg (f : DemoFields) : EmailMsg :=
  { fromAddr := resendFrom
    toAddrs := [f.visitor_email]
    subject := "Demo Request Confirmed - GlobalTechAndTrade"
    html := visitorHtml f.visitor_name f.visitor_email f.phone f.company f.service }

/-- The company email as posted to the Resend API, src/app.py lines 1839-1849. -/
def companyEmailMsg (f : DemoFields) (nowStr : String) : EmailMsg :=
  { fromAddr := resendFrom
    toAddrs := ["info@globaltechandtrade.com"]
    subject := companySubject f.visitor_name f.service
    html := companyHtml f.visitor_name f.visitor_email f.phone f.company f.service
      f.message nowStr }

/-- Info log after the visitor post, src/app.py line 1836. -/
def visitorRespLine (status : Nat) (text : String) : String :=
  s!"Visitor email response: {status} - {text}"

/-- Info log after the company post, src/app.py line 1851. -/
def companyRespLine (status : Nat) (text : String) : String :=
  s!"Company email response: {status} - {text}"

/-- Error log when the visitor send reported a non-200 status, src/app.py line 1855. -/
def visitorFailedLine (text : String) : String :=
  s!"Visitor email failed: {text}"

/-- Error log when the company send reported a non-200 status, src/app.py line 1857. -/
def companyFailedLine (text : String) : String :=
  s!"Company email failed: {text}"

/-- Error log of the handler-boundary `except` clause, src/app.py line 1862. -/
def emailErrorLine (m : String) : String :=
  s!"Email sending error: {m}"

/-- The `/api/send-demo-confirmation` POST handler, src/app.py lines
1732-1863. `resend_api_key` models `os.environ.get('RESEND_API_KEY', '')`;
`data` models `request.get_json()`; `net` supplies what each outbound
Resend post would return; `nowStr` stands for the formatted current time.
A raised transport exception falls to the `except Exception` clause, which
returns `{'success': False, 'error': str(e)}` with status 500. -/
def send_demo_confirmation (resend_api_key : String) (data : Option DemoData)
    (net : Transport) (nowStr : String) : ApiOutcome :=
  match data with
  | none =>
    { body := JsonBody.failure "No data provided", status := 400, sends := [], logs := [] }
  | some d =>
    if d.isEmpty then
      { body := JsonBody.failure "No data provided", status := 400, sends := [], logs := [] }
    else
      let f := parseDemo d
      if f.visitor_email = "" ∨ ¬ pyIn '@' f.visitor_email then
        { body := JsonBody.failure "Invalid email", status := 400, sends := [], logs := [] }
      else if resend_api_key = "" then
        { body := JsonBody.success "Demo recorded (email service not configured)"
          status := 200
          sends := []
          logs := [⟨LogLevel.warning, "RESEND_API_KEY not configured - skipping email"⟩] }
      else
        match net.visitor with
        | SendOutcome.exn m =>
          { body := JsonBody.failure m, status := 500
            sends := [visitorEmailMsg f]
            logs := [⟨LogLevel.error, emailErrorLine m⟩] }
        | SendOutcome.resp vs vt =>
          match net.company with
          | SendOutcome.exn m =>
            { body := JsonBody.failure m, status := 500
              sends := [visitorEmailMsg f, companyEmailMsg f nowStr]
              logs := [⟨LogLevel.info, visitorRespLine vs vt⟩,
                       ⟨LogLevel.error, emailErrorLine m⟩] }
          | SendOutcome.resp cs ct =>
            { body := JsonBody.success "Emails sent successfully", status := 200
              sends := [visitorEmailMsg f, companyEmailMsg f nowStr]
              logs := [⟨LogLevel.info, visitorRespLine vs vt⟩,
                       ⟨LogLevel.info, companyRespLine cs ct⟩] ++
                (if vs ≠ 200 then [⟨LogLevel.error, visitorFailedLine vt⟩] else []) ++
                (if cs ≠ 200 then [⟨LogLevel.error, companyFailedLine ct⟩] else []) }

/-- Structural validity of a JSON submission: exactly the checks the API
handler performs before reaching the transport (non-empty JSON object,
stripped email non-empty and containing `'@'`), src/app.py lines 1740-1751. -/
def demoStructValid (d : DemoData) : Prop :=
  d.isEmpty = false ∧ ¬ (parseDemo d).visitor_email = "" ∧
    pyIn '@' (parseDemo d).visitor_email = true

instance (d : DemoData) : Decidable (demoStructValid d) := by
  unfold demoStructValid
  infer_instance

/-- Body of the `/health` response. -/
structure HealthBody where
  status : String
  timestamp : String
deriving DecidableEq, Repr

/-- The `/health` handler, src/app.py lines 1724-1727. The source reads no
configuration at all; the `resend_api_key` parameter records the ambient
email-transport configuration purely so that independence from it can be
stated. `nowIso` stands for `datetime.now().isoformat()`. -/
def health_check (resend_api_key : String) (nowIso : String) : HealthBody × Nat :=
  ({ status := "healthy", timestamp := nowIso }, 200)

/-- Helper: full evaluation of the API handler on the happy path (valid
payload, configured key, both posts answered with a response rather than
an exception). -/
theorem api_send_eval (k nowStr vt ct : String) (vs cs : Nat) (d : DemoData)
    (hk : ¬ k = "") (hd : demoStructValid d) :
    send_demo_confirmation k (some d)
        ⟨SendOutcome.resp vs vt, SendOutcome.resp cs ct⟩ nowStr =
      { body := JsonBody.success "Emails sent successfully"
        status := 200
        sends := [visitorEmailMsg (parseDemo d), companyEmailMsg (parseDemo d) nowStr]
        logs := [⟨LogLevel.info, visitorRespLine vs vt⟩,
                 ⟨LogLevel.info, companyRespLine cs ct⟩] ++
          (if vs ≠ 200 then [⟨LogLevel.error, visitorFailedLine vt⟩] else []) ++
          (if cs ≠ 200 then [⟨LogLevel.error, companyFailedLine ct⟩] else []) } := by
  obtain ⟨h1, h2, h3⟩ := hd
  simp [send_demo_confirmation, h1, h2, h3, hk]

/-- C1 (counterexample): a valid submission with a configured key whose
visitor post raises an exception with message `"boom"` yields a 500 whose
body carries exactly the internal exception text `"boom"` — not a generic
message free of it. -/
theorem c1_exception_text_leaks :
    (send_demo_confirmation "key123"
        (some { email := some "jane@x.com", name := some "Jane" })
        ⟨SendOutcome.exn "boom", SendOutcome.resp 200 "ok"⟩ "t").status = 500 ∧
    (send_demo_confirmation "key123"
        (some { email := some "jane@x.com", name := some "Jane" })
        ⟨SendOutcome.exn "boom", SendOutcome.resp 200 "ok"⟩ "t").body =
      JsonBody.failure "boom" :=
  ⟨rfl, rfl⟩

/-- C1 (amended): for every POST to `/api/send-demo-confirmation` that
raises an unexpected exception inside the handler, the HTTP response is a
500 whose body is `{'success': False, 'error': str(e)}` — it carries the
internal exception text verbatim rather than a generic message. -/
theorem c1_unexpected_exception_500 (k nowStr m : String) (d : DemoData) (net : Transport)
    (hk : ¬ k = "") (hd : demoStructValid d)
    (hex : net.visitor = SendOutcome.exn m ∨
      ∃ vs vt, net.visitor = SendOutcome.resp vs vt ∧ net.company = SendOutcome.exn m) :
    (send_demo_confirmation k (some d) net nowStr).status = 500 ∧
    (send_demo_confirmation k (some d) net nowStr).body = JsonBody.failure m := by
  obtain ⟨h1, h2, h3⟩ := hd
  rcases hex with hv | ⟨vs, vt, hv, hc⟩
  · simp [send_demo_confirmation, h1, h2, h3, hk, hv]
  · simp [send_demo_confirmation, h1, h2, h3, hk, hv, hc]

/-- Witness for `c1_unexpected_exception_500` at a concrete input. -/
theorem c1_unexpected_exception_500_witness :
    (¬ "key123" = "") ∧
    demoStructValid { email := some "jane@x.com", name := some "Jane" } ∧
    ((send_demo_confirmation "key123"
        (some { email := some "jane@x.com", name := some "Jane" })
        ⟨SendOutcome.exn "oops", SendOutcome.resp 200 "ok"⟩ "t").status = 500 ∧
     (send_demo_confirmation "key123"
        (some { email := some "jane@x.com", name := some "Jane" })
        ⟨SendOutcome.exn "oops", SendOutcome.resp 200 "ok"⟩ "t").body =
       JsonBody.failure "oops") :=
  ⟨by decide, by decide,
    c1_unexpected_exception_500 "key123" "t" "oops"
      { email := some "jane@x.com", name := some "Jane" }
      ⟨SendOutcome.exn "oops", SendOutcome.resp 200 "ok"⟩
      (by decide) (by decide) (Or.inl rfl)⟩

/-- C2 (counterexample): the email `"a@b"` lacks a `'.'`, yet the
`/contact` handler accepts it (success flash) and the API handler does not
reject it (HTTP 200): the `'.'` requirement is not enforced. -/
theorem c2_dot_not_required :
    pyIn '.' "a@b" = false ∧
    (contact_post { name := some "Jane", email := some "a@b", message := some "Please send pricing" }).flashes =
      [(contactThanksLine "Jane", "success")] ∧
    (send_demo_confirmation "" (some { email := some "a@b", name := some "Jane" })
        ⟨SendOutcome.resp 200 "ok", SendOutcome.resp 200 "ok"⟩ "t").status = 200 :=
  ⟨by decide, by decide, rfl⟩

/-- C2 (amended): every submitted email value lacking `'@'` is rejected,
regardless of the other fields, by both the `/contact` form handler
(error flash) and the API endpoint (HTTP 400, "Invalid email"). The
`'.'` requirement of the claim is not checked by either handler. -/
theorem c2_missing_at_rejected (e k nowStr : String) (form : ContactForm) (d : DemoData)
    (net : Transport) (h : pyIn '@' e = false) :
    (contact_post { form with email := some e }).flashes =
      [("Please fill in all required fields correctly.", "error")] ∧
    (send_demo_confirmation k (some { d with email := some e }) net nowStr).status = 400 ∧
    (send_demo_confirmation k (some { d with email := some e }) net nowStr).body =
      JsonBody.failure "Invalid email" := by
  have hs : pyIn '@' (pyStrip e) = false := pyIn_pyStrip_eq_false h
  refine ⟨?_, ?_, ?_⟩
  · simp [contact_post, parseContact, hs]
  · simp [send_demo_confirmation, DemoData.isEmpty, parseDemo, hs]
  · simp [send_demo_confirmation, DemoData.isEmpty, parseDemo, hs]

/-- Witness for `c2_missing_at_rejected` at a concrete input. -/
theorem c2_missing_at_rejected_witness :
    pyIn '@' "not-an-email" = false ∧
    ((contact_post { ({} : ContactForm) with email := some "not-an-email" }).flashes =
      [("Please fill in all required fields correctly.", "error")] ∧
     (send_demo_confirmation "key123"
        (some { ({} : DemoData) with email := some "not-an-email" })
        ⟨SendOutcome.resp 200 "ok", SendOutcome.resp 200 "ok"⟩ "t").status = 400 ∧
     (send_demo_confirmation "key123"
        (some { ({} : DemoData) with email := some "not-an-email" })
        ⟨SendOutcome.resp 200 "ok", SendOutcome.resp 200 "ok"⟩ "t").body =
       JsonBody.failure "Invalid email") :=
  ⟨by decide,
    c2_missing_at_rejected "not-an-email" "key123" "t" {} {}
      ⟨SendOutcome.resp 200 "ok", SendOutcome.resp 200 "ok"⟩ (by decide)⟩

/-- C3 (counterexample): a JSON submission with a valid email but with
`name` and `message` entirely missing is not rejected by the API handler:
with a configured key it answers 200 and attempts both notification
sends. -/
theorem c3_missing_name_message_not_rejected :
    (send_demo_confirmation "key123" (some { email := some "jane@x.com" })
        ⟨SendOutcome.resp 200 "ok", SendOutcome.resp 200 "ok"⟩ "t").status = 200 ∧
    (send_demo_confirmation "key123" (some { email := some "jane@x.com" })
        ⟨SendOutcome.resp 200 "ok", SendOutcome.resp 200 "ok"⟩ "t").sends.length = 2 :=
  ⟨rfl, rfl⟩

/-- C3 (amended): the `/contact` handler rejects (error flash, no send)
whenever `name`, `email` or `message` is missing or empty after trimming;
the API handler rejects with a 400 and no send whenever the email is
missing or empty after trimming — but the API handler does not require
`name` or `message`. -/
theorem c3_required_fields_enforced (form : ContactForm) (d : DemoData) (k nowStr : String)
    (net : Transport)
    (h1 : (parseContact form).name = "" ∨ (parseContact form).email = "" ∨
      (parseContact form).message = "")
    (h2 : pyStrip (d.email.getD "") = "") :
    (contact_post form).flashes =
      [("Please fill in all required fields correctly.", "error")] ∧
    (contact_post form).sends = [] ∧
    (send_demo_confirmation k (some d) net nowStr).status = 400 ∧
    (send_demo_confirmation k (some d) net nowStr).sends = [] := by
  have hc : (parseContact form).name = "" ∨ (parseContact form).email = "" ∨
      ¬ pyIn '@' (parseContact form).email = true ∨ (parseContact form).message = "" := by
    rcases h1 with h | h | h
    · exact Or.inl h
    · exact Or.inr (Or.inl h)
    · exact Or.inr (Or.inr (Or.inr h))
  have hapi : (send_demo_confirmation k (some d) net nowStr).status = 400 ∧
      (send_demo_confirmation k (some d) net nowStr).sends = [] := by
    by_cases hie : d.isEmpty = true
    · constructor <;> simp [send_demo_confirmation, hie]
    · simp only [Bool.not_eq_true] at hie
      constructor <;> simp [send_demo_confirmation, hie, parseDemo, h2]
  refine ⟨?_, ?_, hapi.1, hapi.2⟩
  · unfold contact_post
    rw [if_pos hc]
  · unfold contact_post
    rw [if_pos hc]

/-- Witness for `c3_required_fields_enforced` at a concrete input. -/
theorem c3_required_fields_enforced_witness :
    ((parseContact {}).name = "" ∨ (parseContact {}).email = "" ∨
      (parseContact {}).message = "") ∧
    pyStrip ((({} : DemoData)).email.getD "") = "" ∧
    ((contact_post {}).flashes =
      [("Please fill in all required fields correctly.", "error")] ∧
     (contact_post {}).sends = [] ∧
     (send_demo_confirmation "key123" (some {})
        ⟨SendOutcome.resp 200 "ok", SendOutcome.resp 200 "ok"⟩ "t").status = 400 ∧
     (send_demo_confirmation "key123" (some {})
        ⟨SendOutcome.resp 200 "ok", SendOutcome.resp 200 "ok"⟩ "t").sends = []) :=
  ⟨by decide, by decide,
    c3_required_fields_enforced {} {} "key123" "t"
      ⟨SendOutcome.resp 200 "ok", SendOutcome.resp 200 "ok"⟩ (by decide) (by decide)⟩

/-- C4: a structurally valid submission to the API endpoint while no
`RESEND_API_KEY` is configured answers HTTP 200 with success and a
soft-skip message, and attempts no network send. -/
theorem c4_no_credential_soft_success (d : DemoData) (net : Transport) (nowStr : String)
    (hd : demoStructValid d) :
    (send_demo_confirmation "" (some d) net nowStr).status = 200 ∧
    (send_demo_confirmation "" (some d) net nowStr).body =
      JsonBody.success "Demo recorded (email service not configured)" ∧
    (send_demo_confirmation "" (some d) net nowStr).sends = [] := by
  obtain ⟨h1, h2, h3⟩ := hd
  refine ⟨?_, ?_, ?_⟩ <;> simp [send_demo_confirmation, h1, h2, h3]

/-- Witness for `c4_no_credential_soft_success` at a concrete input. -/
theorem c4_no_credential_soft_success_witness :
    demoStructValid { email := some "jane@x.com", name := some "Jane" } ∧
    ((send_demo_confirmation "" (some { email := some "jane@x.com", name := some "Jane" })
        ⟨SendOutcome.resp 200 "ok", SendOutcome.resp 200 "ok"⟩ "t").status = 200 ∧
     (send_demo_confirmation "" (some { email := some "jane@x.com", name := some "Jane" })
        ⟨SendOutcome.resp 200 "ok", SendOutcome.resp 200 "ok"⟩ "t").body =
       JsonBody.success "Demo recorded (email service not configured)" ∧
     (send_demo_confirmation "" (some { email := some "jane@x.com", name := some "Jane" })
        ⟨SendOutcome.resp 200 "ok", SendOutcome.resp 200 "ok"⟩ "t").sends = []) :=
  ⟨by decide,
    c4_no_credential_soft_success { email := some "jane@x.com", name := some "Jane" }
      ⟨SendOutcome.resp 200 "ok", SendOutcome.resp 200 "ok"⟩ "t" (by decide)⟩

/-- C5: with a configured key and a structurally valid submission, the API
endpoint answers HTTP 200 with success for every pair of transport status
codes — even when one or both posts report a non-success status — and a
non-200 status from either post leaves an error log line recording the
failure. -/
theorem c5_delivery_failure_not_surfaced (k nowStr vt ct : String) (vs cs : Nat)
    (d : DemoData) (hk : ¬ k = "") (hd : demoStructValid d) :
    (send_demo_confirmation k (some d)
        ⟨SendOutcome.resp vs vt, SendOutcome.resp cs ct⟩ nowStr).status = 200 ∧
    (send_demo_confirmation k (some d)
        ⟨SendOutcome.resp vs vt, SendOutcome.resp cs ct⟩ nowStr).body =
      JsonBody.success "Emails sent successfully" ∧
    (if vs = 200 then True else
      LogEntry.mk LogLevel.error (visitorFailedLine vt) ∈
        (send_demo_confirmation k (some d)
          ⟨SendOutcome.resp vs vt, SendOutcome.resp cs ct⟩ nowStr).logs) ∧
    (if cs = 200 then True else
      LogEntry.mk LogLevel.error (companyFailedLine ct) ∈
        (send_demo_confirmation k (some d)
          ⟨SendOutcome.resp vs vt, SendOutcome.resp cs ct⟩ nowStr).logs) := by
  rw [api_send_eval k nowStr vt ct vs cs d hk hd]
  refine ⟨rfl, rfl, ?_, ?_⟩
  · by_cases hv : vs = 200 <;> simp [hv]
  · by_cases hc : cs = 200 <;> simp [hc]

/-- Witness for `c5_delivery_failure_not_surfaced` at a concrete input with
both sends reporting failure statuses. -/
theorem c5_delivery_failure_not_surfaced_witness :
    (¬ "key123" = "") ∧
    demoStructValid { email := some "jane@x.com", name := some "Jane" } ∧
    ((send_demo_confirmation "key123"
        (some { email := some "jane@x.com", name := some "Jane" })
        ⟨SendOutcome.resp 422 "bad req", SendOutcome.resp 500 "server err"⟩ "t").status = 200 ∧
     (send_demo_confirmation "key123"
        (some { email := some "jane@x.com", name := some "Jane" })
        ⟨SendOutcome.resp 422 "bad req", SendOutcome.resp 500 "server err"⟩ "t").body =
       JsonBody.success "Emails sent successfully" ∧
     (if (422 : Nat) = 200 then True else
       LogEntry.mk LogLevel.error (visitorFailedLine "bad req") ∈
         (send_demo_confirmation "key123"
           (some { email := some "jane@x.com", name := some "Jane" })
           ⟨SendOutcome.resp 422 "bad req", SendOutcome.resp 500 "server err"⟩ "t").logs) ∧
     (if (500 : Nat) = 200 then True else
       LogEntry.mk LogLevel.error (companyFailedLine "server err") ∈
         (send_demo_confirmation "key123"
           (some { email := some "jane@x.com", name := some "Jane" })
           ⟨SendOutcome.resp 422 "bad req", SendOutcome.resp 500 "server err"⟩ "t").logs)) :=
  ⟨by decide, by decide,
    c5_delivery_failure_not_surfaced "key123" "t" "bad req" "server err" 422 500
      { email := some "jane@x.com", name := some "Jane" } (by decide) (by decide)⟩

/-- C6 (counterexample): when the visitor post raises an exception, the
handler aborts: only one send is attempted and the business send is never
made, although the business transport would have answered normally. So a
failure of the visitor-send attempt (a raised exception) does prevent the
business-send attempt. -/
theorem c6_visitor_exception_blocks_company :
    (send_demo_confirmation "key123"
        (some { email := some "jane@x.com", name := some "Jane" })
        ⟨SendOutcome.exn "connection timed out", SendOutcome.resp 200 "ok"⟩ "t").sends =
      [visitorEmailMsg (parseDemo { email := some "jane@x.com", name := some "Jane" })] :=
  rfl

/-- C6 (amended): with a configured key and a structurally valid
submission, when both posts complete with a transport response, the
handler attempts the visitor send first and the business send second, and
a non-success status reported by either attempt does not prevent the other
attempt (both sends occur for every pair of status codes). A raised
exception in the visitor send, however, aborts the handler before the
business send. -/
theorem c6_visitor_then_company (k nowStr vt ct : String) (vs cs : Nat) (d : DemoData)
    (hk : ¬ k = "") (hd : demoStructValid d) :
    (send_demo_confirmation k (some d)
        ⟨SendOutcome.resp vs vt, SendOutcome.resp cs ct⟩ nowStr).sends =
      [visitorEmailMsg (parseDemo d), companyEmailMsg (parseDemo d) nowStr] := by
  rw [api_send_eval k nowStr vt ct vs cs d hk hd]

/-- Witness for `c6_visitor_then_company` at a concrete input where the
visitor send reports failure and the business send is still attempted. -/
theorem c6_visitor_then_company_witness :
    (¬ "key123" = "") ∧
    demoStructValid { email := some "jane@x.com", name := some "Jane" } ∧
    (send_demo_confirmation "key123"
        (some { email := some "jane@x.com", name := some "Jane" })
        ⟨SendOutcome.resp 403 "auth", SendOutcome.resp 200 "ok"⟩ "t").sends =
      [visitorEmailMsg (parseDemo { email := some "jane@x.com", name := some "Jane" }),
       companyEmailMsg (parseDemo { email := some "jane@x.com", name := some "Jane" }) "t"] :=
  ⟨by decide, by decide,
    c6_visitor_then_company "key123" "t" "auth" "ok" 403 200
      { email := some "jane@x.com", name := some "Jane" } (by decide) (by decide)⟩

/-- C7 (counterexample): the email `"jane@examplecom"` contains `'@'` but
no `'.'`, so it is syntactically invalid under the specification's email
rule; yet the API endpoint does not answer 400 — it answers 200. -/
theorem c7_no_dot_email_not_rejected :
    pyIn '@' "jane@examplecom" = true ∧
    pyIn '.' "jane@examplecom" = false ∧
    (send_demo_confirmation "" (some { email := some "jane@examplecom", name := some "Jane" })
        ⟨SendOutcome.resp 200 "ok", SendOutcome.resp 200 "ok"⟩ "t").status = 200 :=
  ⟨by decide, by decide, rfl⟩

/-- C7 (amended): for every POST to the API endpoint whose JSON body is
non-empty and whose email is empty or lacks `'@'` after trimming, the
response is HTTP 400 with body `{'success': False, 'error': 'Invalid
email'}`. An email containing `'@'` but lacking `'.'` is not rejected. -/
theorem c7_invalid_email_400 (k nowStr : String) (d : DemoData) (net : Transport)
    (h1 : d.isEmpty = false)
    (h2 : (parseDemo d).visitor_email = "" ∨ pyIn '@' (parseDemo d).visitor_email = false) :
    (send_demo_confirmation k (some d) net nowStr).status = 400 ∧
    (send_demo_confirmation k (some d) net nowStr).body = JsonBody.failure "Invalid email" := by
  rcases h2 with h | h
  · constructor <;> simp [send_demo_confirmation, h1, h]
  · constructor <;> simp [send_demo_confirmation, h1, h]

/-- Witness for `c7_invalid_email_400` at a concrete input. -/
theorem c7_invalid_email_400_witness :
    (({ email := some "abc" } : DemoData)).isEmpty = false ∧
    ((parseDemo { email := some "abc" }).visitor_email = "" ∨
      pyIn '@' (parseDemo { email := some "abc" }).visitor_email = false) ∧
    ((send_demo_confirmation "key123" (some { email := some "abc" })
        ⟨SendOutcome.resp 200 "ok", SendOutcome.resp 200 "ok"⟩ "t").status = 400 ∧
     (send_demo_confirmation "key123" (some { email := some "abc" })
        ⟨SendOutcome.resp 200 "ok", SendOutcome.resp 200 "ok"⟩ "t").body =
       JsonBody.failure "Invalid email") :=
  ⟨by decide, by decide,
    c7_invalid_email_400 "key123" "t" { email := some "abc" }
      ⟨SendOutcome.resp 200 "ok", SendOutcome.resp 200 "ok"⟩ (by decide) (by decide)⟩

/-- C8 (counterexample): in the API handler a missing `service` field
defaults to the empty string, not to a sentinel label; and in the
`/contact` handler a present-but-blank `service` is kept blank. -/
theorem c8_service_default_empty :
    (parseDemo { email := some "jane@x.com" }).service = "" ∧
    ¬ (parseDemo { email := some "jane@x.com" }).service = "General Inquiry" ∧
    ¬ (parseDemo { email := some "jane@x.com" }).service = "General Services" ∧
    (parseContact { service := some "" }).service = "" := by
  decide

/-- C8 (amended): the `/contact` handler defaults `service` to
`"General Services"` only when the field is absent; a present value (even
blank) is kept verbatim. The API handler defaults `service` to the empty
string, never to a sentinel label. -/
theorem c8_service_defaults (f : ContactForm) (d : DemoData) (s : String) :
    (parseContact { f with service := none }).service = "General Services" ∧
    (parseContact { f with service := some s }).service = s ∧
    (parseDemo { d with service := none }).service = "" ∧
    (parseDemo { d with service := some s }).service = s :=
  ⟨rfl, rfl, rfl, rfl⟩

/-- C9: `GET /health` answers HTTP 200 with a `status` field equal to
`"healthy"` and the current timestamp, and its result is independent of
the email-transport configuration. -/
theorem c9_health_always_healthy (k k' nowIso : String) :
    health_check k nowIso = ({ status := "healthy", timestamp := nowIso }, 200) ∧
    health_check k nowIso = health_check k' nowIso :=
  ⟨rfl, rfl⟩

/-- C10: the `/contact` POST handler never attempts an email send, always
re-renders the contact page with HTTP 200, and its only other observable
effects are exactly one flashed message and (on the valid branch) a log
line. -/
theorem c10_contact_never_sends (form : ContactForm) :
    (contact_post form).sends = [] ∧
    (contact_post form).status = 200 ∧
    (contact_post form).template = "contact.html" ∧
    (contact_post form).flashes.length = 1 ∧
    (contact_post form).logs.length ≤ 1 := by
  by_cases h : (parseContact form).name = "" ∨ (parseContact form).email = "" ∨
      pyIn '@' (parseContact form).email = false ∨ (parseContact form).message = ""
  · simp [contact_post, h]
  · simp [contact_post, h]

end GlobalTechTrade
